import Mathlib

/-!
# fireblocks-passthrough-go: request signing and dispatch

A shallow embedding of `fireblocks_sdk.go` (package `fireblocks`).

Go `string` and `[]byte` values are both finite byte sequences and the
conversions `string(b)` / `[]byte(s)` keep the bytes; the embedding uses one
type, `Bytes`, for both.  Go `error` values are `Option GoError` (`none` is
`nil`).

What the file gets from outside itself (entropy from `crypto/rand`, the clock,
the JWT signer, `net/http`, the state of the hystrix circuit and the replies to
the HTTP client inside it) is supplied by an `Env`
record: one field per call, holding what that call returns.  Every such call is
taken to return; a panic inside a library is outside the embedding.  Effects are
made explicit: each operation returns, next to its Go results, the log lines it
wrote and the values it handed to the libraries (the claim set given to the
signer, the request given to the HTTP client).
-/

namespace Fireblocks

/-! ## Data model -/

/-- Go strings and byte slices. -/
abbrev Bytes := List UInt8

/-- A source-code string literal as bytes.  Every literal of the source is
ASCII, where the UTF-8 encoding is one byte per character. -/
def lit (s : String) : Bytes := s.toList.map (fun c => UInt8.ofNat c.toNat)

/-- Modelled from the spec: the declaration of the type `Method` is not in the
source file.  The spec has the method among `GET`, `POST`, `PUT`, `DELETE`, and
`Passthrough` compares it with string constants: a string type. -/
abbrev Method := Bytes

/-- A non-nil Go `error`; `msg` is what `Error()` returns. -/
structure GoError where
  msg : Bytes
deriving DecidableEq, Repr

/-- One logrus call. -/
inductive LogEntry where
  | error (e : GoError)
  | errorf (line : Bytes)
  | warning (line : Bytes)
deriving DecidableEq, Repr

/-- The fields of `rsa.PrivateKey` the embedding carries around. -/
structure PrivateKey where
  n : Nat
  e : Nat
  d : Nat
deriving DecidableEq, Repr

/-- The `jwt.MapClaims` literal of `createAndSignJWTToken`, one field per key. -/
structure Claims where
  uri : Bytes
  nonce : Int
  iat : Int
  exp : Int
  sub : Bytes
  bodyHash : Bytes
deriving DecidableEq, Repr

/-- The part of `http.Request` the file sets: method, URL, body reader
(`none` is the `nil` reader) and the header as the list of `Header.Add`
calls in order. -/
structure Request where
  method : Bytes
  url : Bytes
  body : Option Bytes
  header : List (Bytes × Bytes)
deriving DecidableEq, Repr

/-- The part of `http.Response` the file reads.  `body` and `readErr` are what
`ioutil.ReadAll(response.Body)` returns, `closeErr` what `Body.Close()` returns. -/
structure Response where
  status : Bytes
  statusCode : Int
  body : Bytes
  readErr : Option GoError
  closeErr : Option GoError
deriving DecidableEq, Repr

/-- The `hystrix.Client` built by `newCircuitBreakerHttpClient`: its HTTP timeout
(a `time.Duration`, in nanoseconds).  Its fallback function is always the one
function literal of `newCircuitBreakerHttpClient`, `fallbackFunc` below, and it
makes no retries. -/
structure HystrixClient where
  httpTimeout : Int
deriving DecidableEq, Repr

/-- Go `type FbKeyMgmt struct`.  The `rnd` field is `rand.New` of a `secrets` value, a source
without state of its own: its reads come from the environment. -/
structure FbKeyMgmt where
  privateKey : Option PrivateKey
  apiKey : Bytes
deriving DecidableEq, Repr

/-- Go `type SDK struct`. -/
structure SDK where
  httpClient : HystrixClient
  apiBaseURL : Bytes
  kto : FbKeyMgmt
deriving DecidableEq, Repr

/-- What the libraries return to one call of the operations below. -/
structure Env where
  /-- Go `binary.Read(crand.Reader, binary.BigEndian, &r)`: the big-endian value of
  the eight bytes read, or the read error (then `r` is left untouched). -/
  binaryRead : Except GoError Nat
  /-- First `time.Now()` of `createAndSignJWTToken`, nanoseconds since the epoch. -/
  now1 : Int
  /-- Second `time.Now()` of `createAndSignJWTToken`, nanoseconds since the epoch. -/
  now2 : Int
  /-- Go `jwt.NewWithClaims(jwt.SigningMethodRS256, token).SignedString(key)`. -/
  signedString : Claims → Option PrivateKey → Bytes × Option GoError
  /-- Go `jwt.ParseRSAPrivateKeyFromPEM`. -/
  parseRSAPrivateKeyFromPEM : Bytes → Except GoError PrivateKey
  /-- The error of `http.NewRequest` for a method and a URL, `none` when it
  accepts them. -/
  newRequestErr : Bytes → Bytes → Option GoError
  /-- The error with which hystrix ends the command on its own account (circuit
  open, concurrency limit, command timeout), `none` when the run function runs to
  its end. -/
  circuit : Option GoError
  /-- The `Do` of the `http.Client` inside the hystrix client, for a timeout and a
  request: the reply of the server, whatever its status, or the transport error. -/
  httpDo : Int → Request → Except GoError Response

/-! ## time -/

/-- Go `time.Millisecond` as a `time.Duration` (nanoseconds). -/
def time.Millisecond : Int := 1000000

/-- Go `time.Second` as a `time.Duration` (nanoseconds). -/
def time.Second : Int := 1000000000

/-- Go `Time.Add`. -/
def time.Add (t d : Int) : Int := t + d

/-- Go `Time.Unix`: whole seconds since the epoch, rounded down. -/
def time.Unix (t : Int) : Int := t / 1000000000

/-- Go `const timeout = 5 * time.Millisecond`. -/
def timeout : Int := 5 * time.Millisecond

/-! ## secrets -/

/-- Conversion `uint64(x)`. -/
def toUint64 (x : Nat) : Nat := x % 2 ^ 64

/-- Conversion `int64(x)` of a `uint64`. -/
def toInt64 (x : Nat) : Int :=
  if x % 2 ^ 64 < 2 ^ 63 then (x % 2 ^ 64 : Nat) else ((x % 2 ^ 64 : Nat) : Int) - 2 ^ 64

/-- Bitwise complement `^x` of a `uint64`. -/
def notUint64 (x : Nat) : Nat := 2 ^ 64 - 1 - x % 2 ^ 64

/-- Go `func (s secrets) Uint64() (r uint64)`: the value read, or the zero value
of `r` and a log line when the read fails. -/
def secrets.Uint64 (env : Env) : Nat × List LogEntry :=
  match env.binaryRead with
  | .error err => (0, [LogEntry.error err])
  | .ok r => (toUint64 r, [])

/-- Go `func (s secrets) Int63() int64`. -/
def secrets.Int63 (env : Env) : Int × List LogEntry :=
  let u := secrets.Uint64 env
  (toInt64 (u.1 &&& notUint64 (1 <<< 63)), u.2)

/-! ## hashing

`crypto/sha256` and `encoding/hex` are written out (FIPS 180-4 for the
digest), with 32-bit words as natural numbers reduced modulo `2 ^ 32`. -/

/-- Round constants of SHA-256. -/
def sha256.K : List Nat :=
  [1116352408, 1899447441, 3049323471, 3921009573, 961987163, 1508970993,
   2453635748, 2870763221, 3624381080, 310598401, 607225278, 1426881987,
   1925078388, 2162078206, 2614888103, 3248222580, 3835390401, 4022224774,
   264347078, 604807628, 770255983, 1249150122, 1555081692, 1996064986,
   2554220882, 2821834349, 2952996808, 3210313671, 3336571891, 3584528711,
   113926993, 338241895, 666307205, 773529912, 1294757372, 1396182291,
   1695183700, 1986661051, 2177026350, 2456956037, 2730485921, 2820302411,
   3259730800, 3345764771, 3516065817, 3600352804, 4094571909, 275423344,
   430227734, 506948616, 659060556, 883997877, 958139571, 1322822218,
   1537002063, 1747873779, 1955562222, 2024104815, 2227730452, 2361852424,
   2428436474, 2756734187, 3204031479, 3329325298]

/-- The eight working words of SHA-256. -/
structure sha256.State where
  a : Nat
  b : Nat
  c : Nat
  d : Nat
  e : Nat
  f : Nat
  g : Nat
  h : Nat
deriving DecidableEq, Repr

/-- Initial hash value of SHA-256. -/
def sha256.init : sha256.State :=
  { a := 1779033703, b := 3144134277, c := 1013904242, d := 2773480762
    e := 1359893119, f := 2600822924, g := 528734635, h := 1541459225 }

/-- Addition of 32-bit words. -/
def sha256.add (x y : Nat) : Nat := (x + y) % 2 ^ 32

/-- Rotation of a 32-bit word to the right by `n` bits. -/
def sha256.rotr (x n : Nat) : Nat := (x >>> n ||| x <<< (32 - n)) % 2 ^ 32

/-- Big-endian 32-bit words of a byte sequence. -/
def sha256.words : Bytes → List Nat
  | b0 :: b1 :: b2 :: b3 :: rest =>
    (b0.toNat <<< 24 ||| b1.toNat <<< 16 ||| b2.toNat <<< 8 ||| b3.toNat) :: sha256.words rest
  | _ => []

/-- Big-endian bytes of a number, `n` of them. -/
def sha256.bytes : Nat → Nat → Bytes
  | 0, _ => []
  | n + 1, x => UInt8.ofNat (x >>> (8 * n) % 256) :: sha256.bytes n x

/-- Message padding: the byte `0x80`, zeros up to 56 modulo 64, and the length
in bits as a 64-bit big-endian number. -/
def sha256.pad (data : Bytes) : Bytes :=
  data ++ [128] ++ List.replicate ((119 - data.length % 64) % 64) 0
    ++ sha256.bytes 8 (8 * data.length % 2 ^ 64)

/-- Message schedule, newest word first: `n` more words after those given. -/
def sha256.schedule : Nat → List Nat → List Nat
  | 0, w => w
  | n + 1, w =>
    let w2 := w.getD 1 0
    let w7 := w.getD 6 0
    let w15 := w.getD 14 0
    let w16 := w.getD 15 0
    let s0 := sha256.rotr w15 7 ^^^ sha256.rotr w15 18 ^^^ (w15 >>> 3)
    let s1 := sha256.rotr w2 17 ^^^ sha256.rotr w2 19 ^^^ (w2 >>> 10)
    sha256.schedule n (sha256.add (sha256.add (sha256.add w16 s0) w7) s1 :: w)

/-- One round of the compression function. -/
def sha256.round (s : sha256.State) (k w : Nat) : sha256.State :=
  let s1 := sha256.rotr s.e 6 ^^^ sha256.rotr s.e 11 ^^^ sha256.rotr s.e 25
  let ch := (s.e &&& s.f) ^^^ ((2 ^ 32 - 1 - s.e) &&& s.g)
  let t1 := sha256.add (sha256.add (sha256.add (sha256.add s.h s1) ch) k) w
  let s0 := sha256.rotr s.a 2 ^^^ sha256.rotr s.a 13 ^^^ sha256.rotr s.a 22
  let maj := (s.a &&& s.b) ^^^ (s.a &&& s.c) ^^^ (s.b &&& s.c)
  let t2 := sha256.add s0 maj
  { a := sha256.add t1 t2, b := s.a, c := s.b, d := s.c
    e := sha256.add s.d t1, f := s.e, g := s.f, h := s.g }

/-- The rounds over the round constants and the schedule. -/
def sha256.rounds (s : sha256.State) : List Nat → List Nat → sha256.State
  | k :: ks, w :: ws => sha256.rounds (sha256.round s k w) ks ws
  | _, _ => s

/-- The compression function on one block of 16 words. -/
def sha256.block (h : sha256.State) (m : List Nat) : sha256.State :=
  let s := sha256.rounds h sha256.K (sha256.schedule 48 m.reverse).reverse
  { a := sha256.add h.a s.a, b := sha256.add h.b s.b, c := sha256.add h.c s.c
    d := sha256.add h.d s.d, e := sha256.add h.e s.e, f := sha256.add h.f s.f
    g := sha256.add h.g s.g, h := sha256.add h.h s.h }

/-- The compression function over `n` blocks of 16 words. -/
def sha256.blocks : Nat → sha256.State → List Nat → sha256.State
  | 0, h, _ => h
  | n + 1, h, ws => sha256.blocks n (sha256.block h (ws.take 16)) (ws.drop 16)

/-- Go `sha256.New()`, `Write(data)`, `Sum(nil)`: the SHA-256 digest, 32 bytes. -/
def sha256.Sum (data : Bytes) : Bytes :=
  let ws := sha256.words (sha256.pad data)
  let h := sha256.blocks (ws.length / 16) sha256.init ws
  sha256.bytes 4 h.a ++ sha256.bytes 4 h.b ++ sha256.bytes 4 h.c ++ sha256.bytes 4 h.d
    ++ sha256.bytes 4 h.e ++ sha256.bytes 4 h.f ++ sha256.bytes 4 h.g ++ sha256.bytes 4 h.h

/-- Go `hextable` of `encoding/hex`. -/
def hex.hextable : Bytes := lit "0123456789abcdef"

/-- Go `hex.EncodeToString`. -/
def hex.EncodeToString : Bytes → Bytes
  | [] => []
  | v :: rest =>
    hex.hextable.getD (v.toNat >>> 4) 0 :: hex.hextable.getD (v.toNat &&& 0x0f) 0
      :: hex.EncodeToString rest

/-- Go `func createHash(data string) string`. -/
def createHash (data : Bytes) : Bytes :=
  let hashed := sha256.Sum data
  hex.EncodeToString hashed

/-! ## FbKeyMgmt -/

/-- Go `func NewInstanceKeyMgmt`. -/
def NewInstanceKeyMgmt (pk : Option PrivateKey) (apiKey : Bytes) : FbKeyMgmt :=
  { privateKey := pk, apiKey := apiKey }

/-- Results of `createAndSignJWTToken`: the Go pair `(signedToken, err)`, the
claim set handed to the signer and the log lines written. -/
structure SignResult where
  signedToken : Bytes
  err : Option GoError
  claims : Claims
  logs : List LogEntry
deriving DecidableEq, Repr

/-- Go `log.Error(err)` under `if err != nil`. -/
def logIfErr : Option GoError → List LogEntry
  | none => []
  | some err => [LogEntry.error err]

/-- Go `func (k *FbKeyMgmt) createAndSignJWTToken(path string, bodyJSON string)`. -/
def FbKeyMgmt.createAndSignJWTToken (k : FbKeyMgmt) (env : Env) (path bodyJSON : Bytes) :
    SignResult :=
  let nonce := secrets.Int63 env
  let token : Claims :=
    { uri := path
      nonce := nonce.1
      iat := time.Unix env.now1
      exp := time.Unix (time.Add env.now2 (time.Second * 55))
      sub := k.apiKey
      bodyHash := createHash bodyJSON }
  let signed := env.signedString token k.privateKey
  { signedToken := signed.1
    err := signed.2
    claims := token
    logs := nonce.2 ++ logIfErr signed.2 }

/-! ## SDK -/

/-- The function literal `func(err error) error` that `newCircuitBreakerHttpClient`
passes to `hystrix.WithFallbackFunc`: it logs the error and returns it. -/
def fallbackFunc (err : GoError) : GoError × List LogEntry :=
  (err, [LogEntry.errorf (lit "no fallback func implemented: " ++ err.msg)])

/-- Go `func newCircuitBreakerHttpClient(t time.Duration) *hystrix.Client`: the
client with HTTP timeout `t` and fallback function `fallbackFunc`. -/
def newCircuitBreakerHttpClient (t : Int) : HystrixClient :=
  { httpTimeout := t }

/-- The error `err5xx` of the hystrix client: what its run function returns for a
reply with status 500 or above. -/
def hystrix.err5xx : GoError := { msg := lit "server returned 5xx status code" }

/-- The error of `hystrix.Do` when the run function failed with `err` and the
fallback function returned `fallbackErr`: the `fmt.Errorf` of both. -/
def hystrix.fallbackFailed (fallbackErr err : GoError) : GoError :=
  { msg := lit "fallback failed with \x27" ++ fallbackErr.msg
      ++ lit "\x27. run error was \x27" ++ err.msg ++ lit "\x27" }

/-- Go `(*hystrix.Client).Do`, for the client `newCircuitBreakerHttpClient`
builds, with the log lines written.  The run function calls the inner
`http.Client` and fails with the transport error, or with `err5xx` when the
reply has status 500 or above; hystrix itself may end the command with an error
of its own.  On any of these errors hystrix calls the fallback function, which
returns an error, so `hystrix.Do` returns the error made of both and `Do`
returns it to the caller, who then ignores the reply.  Only a reply with status
below 500 comes back with a nil error. -/
def HystrixClient.Do (client : HystrixClient) (env : Env) (request : Request) :
    Except GoError Response × List LogEntry :=
  let run : Except GoError Response :=
    match env.circuit with
    | some err => .error err
    | none =>
      match env.httpDo client.httpTimeout request with
      | .error err => .error err
      | .ok response =>
        if response.statusCode ≥ 500 then .error hystrix.err5xx else .ok response
  match run with
  | .error err =>
    let fallback := fallbackFunc err
    (.error (hystrix.fallbackFailed fallback.1 err), fallback.2)
  | .ok response => (.ok response, [])

/-- Go `func NewInstance(pk []byte, ak string, url string, t time.Duration) *SDK`,
with the log lines written.  A key that does not parse is logged and the
instance keeps the `nil` key. -/
def NewInstance (env : Env) (pk ak url : Bytes) (t : Int) : SDK × List LogEntry :=
  let t := if t = 0 then timeout else t
  let parsed : Option PrivateKey × List LogEntry :=
    match env.parseRSAPrivateKeyFromPEM pk with
    | .error err => (none, [LogEntry.error err])
    | .ok privateK => (some privateK, [])
  ({ apiBaseURL := url
     kto := NewInstanceKeyMgmt parsed.1 ak
     httpClient := newCircuitBreakerHttpClient t }, parsed.2)

/-- Go `http.NewRequest(method, url, body)`: the error for a method or URL it
rejects, otherwise a request with that method (`GET` for the empty method), URL
and body and an empty header. -/
def http.NewRequest (env : Env) (method url : Bytes) (body : Option Bytes) :
    Except GoError Request :=
  match env.newRequestErr method url with
  | some err => .error err
  | none =>
    .ok { method := if method = [] then lit "GET" else method
          url := url
          body := body
          header := [] }

/-- Go `request.Header.Add(key, value)`.  The library stores the key in its
canonical letter case; the embedding keeps the spelling of the call. -/
def Request.headerAdd (request : Request) (key value : Bytes) : Request :=
  { request with header := request.header ++ [(key, value)] }

/-- The values a request carries under a header key, in order. -/
def Request.headerValues (request : Request) (key : Bytes) : List Bytes :=
  (request.header.filter (fun kv => kv.1 = key)).map Prod.snd

/-- The `fmt.Sprintf` of the message payloads: the text between `message: ` quoted, with a
full stop, in braces. -/
def sprintfMessage (text : Bytes) : Bytes :=
  lit "\x7bmessage: \"" ++ text ++ lit ".\"\x7d"

/-- The `fmt.Sprintf` of the `Authorization` value: `Bearer `, then the token. -/
def sprintfBearer (token : Bytes) : Bytes :=
  lit "Bearer " ++ token

/-- The `fmt.Sprintf` of the warning: `fireblocks server: `, the status line, a
line break between blanks, the data. -/
def sprintfServer (status data : Bytes) : Bytes :=
  lit "fireblocks server: " ++ status ++ lit " \n " ++ data

/-- The warning written under `if response.StatusCode >= 300`. -/
def logIfStatus (response : Response) (data : Bytes) : List LogEntry :=
  if response.statusCode ≥ 300 then [LogEntry.warning (sprintfServer response.status data)]
  else []

/-- Results of `getRequest`, `changeRequest` and `Passthrough`: the Go pair
`(payload, err)`, then what the call did on the way: the claim set it had
signed, the request it handed to `httpClient.Do` (`none` when it sent none),
the response `httpClient.Do` returned with a nil error (`none` when there was
none) and the log lines written. -/
structure Outcome where
  payload : Bytes
  err : Option GoError
  claims : Claims
  request : Option Request
  response : Option Response
  logs : List LogEntry
deriving DecidableEq, Repr

/-- Go `func (s *SDK) getRequest(path string) (string, error)`. -/
def SDK.getRequest (s : SDK) (env : Env) (path : Bytes) : Outcome :=
  let urlEndPoint := s.apiBaseURL ++ path
  let signed := s.kto.createAndSignJWTToken env path (lit "")
  match signed.err with
  | some err =>
    { payload := sprintfMessage (lit "error signing JWT token"), err := some err
      claims := signed.claims, request := none, response := none
      logs := signed.logs ++ [LogEntry.error err] }
  | none =>
    match http.NewRequest env (lit "GET") urlEndPoint none with
    | .error err =>
      { payload := sprintfMessage (lit "error creating NewRequest"), err := some err
        claims := signed.claims, request := none, response := none
        logs := signed.logs ++ [LogEntry.error err] }
    | .ok request =>
      let request := request.headerAdd (lit "X-API-Key") s.kto.apiKey
      let request := request.headerAdd (lit "Authorization") (sprintfBearer signed.signedToken)
      let reply := s.httpClient.Do env request
      match reply.1 with
      | .error err =>
        { payload := lit "", err := some err
          claims := signed.claims, request := some request, response := none
          logs := signed.logs ++ reply.2 ++ [LogEntry.error err] }
      | .ok response =>
        match response.readErr with
        | some err =>
          { payload := lit "", err := some err
            claims := signed.claims, request := some request, response := some response
            logs := signed.logs
              ++ [LogEntry.errorf (lit "error communicating with fireblocks: " ++ err.msg)]
              ++ logIfErr response.closeErr }
        | none =>
          let data := response.body
          { payload := data, err := none
            claims := signed.claims, request := some request, response := some response
            logs := signed.logs ++ logIfStatus response data ++ logIfErr response.closeErr }

/-- Go `func (s *SDK) changeRequest(path string, payload []byte, idempotencyKey string,
requestType string) (string, error)`. -/
def SDK.changeRequest (s : SDK) (env : Env) (path payload idempotencyKey requestType : Bytes) :
    Outcome :=
  let urlEndPoint := s.apiBaseURL ++ path
  let signed := s.kto.createAndSignJWTToken env path payload
  match signed.err with
  | some err =>
    { payload := sprintfMessage (lit "error signing JWT token"), err := some err
      claims := signed.claims, request := none, response := none
      logs := signed.logs ++ [LogEntry.error err] }
  | none =>
    match http.NewRequest env requestType urlEndPoint (some payload) with
    | .error err =>
      { payload := sprintfMessage (lit "error creating NewRequest"), err := some err
        claims := signed.claims, request := none, response := none
        logs := signed.logs ++ [LogEntry.error err] }
    | .ok request =>
      let request := request.headerAdd (lit "X-API-Key") s.kto.apiKey
      let request := request.headerAdd (lit "Authorization") (sprintfBearer signed.signedToken)
      let request := request.headerAdd (lit "Content-Type") (lit "application/json")
      let request :=
        if idempotencyKey.length > 0 then request.headerAdd (lit "Idempotency-Key") idempotencyKey
        else request
      let reply := s.httpClient.Do env request
      match reply.1 with
      | .error err =>
        { payload := lit "", err := some err
          claims := signed.claims, request := some request, response := none
          logs := signed.logs ++ reply.2 ++ [LogEntry.error err] }
      | .ok response =>
        match response.readErr with
        | some err =>
          { payload := lit "", err := some err
            claims := signed.claims, request := some request, response := some response
            logs := signed.logs
              ++ [LogEntry.errorf (lit "error on communicating with Fireblocks: " ++ err.msg
                    ++ lit "  \n data: " ++ response.body)]
              ++ logIfErr response.closeErr }
        | none =>
          let data := response.body
          { payload := data, err := none
            claims := signed.claims, request := some request, response := some response
            logs := signed.logs ++ logIfStatus response data ++ logIfErr response.closeErr }

/-- Go `func (s *SDK) Passthrough(method Method, path string, payload []byte)
(interface, error)`. -/
def SDK.Passthrough (s : SDK) (env : Env) (method : Method) (path payload : Bytes) : Outcome :=
  let _method :=
    if method = lit "POST" then lit "POST"
    else if method = lit "PUT" then lit "PUT"
    else if method = lit "DELETE" then lit "DELETE"
    else lit "GET"
  if _method = lit "GET" then s.getRequest env path
  else s.changeRequest env path payload (lit "") _method

/-! ## Stand-ins for the libraries, for concrete runs -/

/-- A small key for concrete runs. -/
def stubKey : PrivateKey := { n := 3233, e := 17, d := 2753 }

/-- Stand-in for the PEM text of `stubKey`: the one text the parser of the
stand-in environment accepts. -/
def stubPem : Bytes := lit "pem:3233:17:2753"

/-- A client for concrete runs. -/
def stubSDK : SDK :=
  { httpClient := newCircuitBreakerHttpClient timeout
    apiBaseURL := lit "https://api.test"
    kto := NewInstanceKeyMgmt (some stubKey) (lit "caller-1") }

/-- A read error for concrete runs. -/
def stubErr : GoError := { msg := lit "unexpected EOF" }

/-- An environment for concrete runs: the entropy read, the two clock readings,
the error of the signer and the reply to the inner HTTP client are given, the
circuit is closed; the token
stand-in spells out the `uri` and `bodyHash` of the claim set. -/
def stubEnv (read : Except GoError Nat) (now1 now2 : Int) (signErr : Option GoError)
    (reply : Except GoError Response) : Env :=
  { binaryRead := read
    now1 := now1
    now2 := now2
    signedString := fun c _ =>
      match signErr with
      | none => (lit "jwt:" ++ c.uri ++ lit ":" ++ c.bodyHash, none)
      | some err => (lit "", some err)
    parseRSAPrivateKeyFromPEM := fun pem =>
      if pem = stubPem then .ok stubKey else .error { msg := lit "invalid key" }
    newRequestErr := fun _ _ => none
    circuit := none
    httpDo := fun _ _ => reply }

/-- The reply `404 Not Found` whose body is the JSON object with the one field
`error`, of value `not found`. -/
def stubNotFound : Response :=
  { status := lit "404 Not Found"
    statusCode := 404
    body := lit "\x7b\"error\":\"not found\"\x7d"
    readErr := none
    closeErr := none }

/-! ## The requests handed to the client, spelled out -/

/-- The request `getRequest` hands to the client when it gets that far. -/
def getRequestBuilt (s : SDK) (env : Env) (path : Bytes) : Request :=
  { method := lit "GET"
    url := s.apiBaseURL ++ path
    body := none
    header :=
      [(lit "X-API-Key", s.kto.apiKey),
       (lit "Authorization",
         lit "Bearer " ++ (s.kto.createAndSignJWTToken env path (lit "")).signedToken)] }

/-- The request `changeRequest` hands to the client when it gets that far. -/
def changeRequestBuilt (s : SDK) (env : Env) (path payload idempotencyKey requestType : Bytes) :
    Request :=
  { method := if requestType = [] then lit "GET" else requestType
    url := s.apiBaseURL ++ path
    body := some payload
    header :=
      [(lit "X-API-Key", s.kto.apiKey),
       (lit "Authorization",
         lit "Bearer " ++ (s.kto.createAndSignJWTToken env path payload).signedToken),
       (lit "Content-Type", lit "application/json")]
      ++ (if idempotencyKey.length > 0 then [(lit "Idempotency-Key", idempotencyKey)] else []) }

/-- The stand-in environment in which everything succeeds and the client
replies `404 Not Found`. -/
def notFoundEnv : Env :=
  stubEnv (.ok 18446744073709551615) 1700000000250000000 1700000000250000400 none
    (.ok stubNotFound)

/-- The stand-in environment whose two clock readings are one nanosecond apart,
the first at the end of a second and the second at the start of the next. -/
def boundaryEnv : Env :=
  stubEnv (.ok 7) 1700000000999999999 1700000001000000000 none (.ok stubNotFound)

/-- The stand-in environment whose entropy read fails, everything else succeeding. -/
def noEntropyEnv : Env :=
  stubEnv (.error stubErr) 1700000000250000000 1700000000250000400 none (.ok stubNotFound)

/-- The stand-in environment whose signer fails. -/
def noSignEnv : Env :=
  stubEnv (.ok 7) 1700000000250000000 1700000000250000400
    (some { msg := lit "key is invalid" }) (.ok stubNotFound)


/-! ## Lemmas -/

set_option maxRecDepth 100000

theorem getRequest_request_eq (s : SDK) (env : Env) (path : Bytes) (req : Request)
    (h : (s.getRequest env path).request = some req) : req = getRequestBuilt s env path := by
  unfold SDK.getRequest at h
  simp only [http.NewRequest] at h
  split at h
  · simp at h
  · split at h
    · simp at h
    · rename_i request hreq
      split at hreq
      · simp at hreq
      · simp only [Except.ok.injEq] at hreq
        subst hreq
        split at h
        · simp only [Option.some.injEq] at h
          subst h
          simp [getRequestBuilt, Request.headerAdd, sprintfBearer]
        · split at h <;>
          · simp only [Option.some.injEq] at h
            subst h
            simp [getRequestBuilt, Request.headerAdd, sprintfBearer]

theorem changeRequest_request_eq (s : SDK) (env : Env)
    (path payload idempotencyKey requestType : Bytes) (req : Request)
    (h : (s.changeRequest env path payload idempotencyKey requestType).request = some req) :
    req = changeRequestBuilt s env path payload idempotencyKey requestType := by
  unfold SDK.changeRequest at h
  simp only [http.NewRequest] at h
  split at h
  · simp at h
  · split at h
    · simp at h
    · rename_i request hreq
      split at hreq
      · simp at hreq
      · simp only [Except.ok.injEq] at hreq
        subst hreq
        split at h
        · simp only [Option.some.injEq] at h
          subst h
          by_cases hk : idempotencyKey.length > 0 <;>
            simp [changeRequestBuilt, Request.headerAdd, sprintfBearer, hk]
        · split at h <;>
          · simp only [Option.some.injEq] at h
            subst h
            by_cases hk : idempotencyKey.length > 0 <;>
              simp [changeRequestBuilt, Request.headerAdd, sprintfBearer, hk]

theorem getRequest_claims (s : SDK) (env : Env) (path : Bytes) :
    (s.getRequest env path).claims = (s.kto.createAndSignJWTToken env path (lit "")).claims := by
  unfold SDK.getRequest
  simp only []
  split
  · rfl
  · split
    · rfl
    · split
      · rfl
      · split <;> rfl

theorem changeRequest_claims (s : SDK) (env : Env)
    (path payload idempotencyKey requestType : Bytes) :
    (s.changeRequest env path payload idempotencyKey requestType).claims
      = (s.kto.createAndSignJWTToken env path payload).claims := by
  unfold SDK.changeRequest
  simp only []
  split
  · rfl
  · split
    · rfl
    · split
      · rfl
      · split <;> rfl

theorem getRequest_of_sign_err (s : SDK) (env : Env) (path : Bytes) (err : GoError)
    (h : (s.kto.createAndSignJWTToken env path (lit "")).err = some err) :
    (s.getRequest env path).payload = sprintfMessage (lit "error signing JWT token")
      ∧ (s.getRequest env path).err = some err
      ∧ (s.getRequest env path).request = none
      ∧ (s.getRequest env path).response = none := by
  unfold SDK.getRequest
  simp [h]

theorem changeRequest_of_sign_err (s : SDK) (env : Env)
    (path payload idempotencyKey requestType : Bytes) (err : GoError)
    (h : (s.kto.createAndSignJWTToken env path payload).err = some err) :
    (s.changeRequest env path payload idempotencyKey requestType).payload
        = sprintfMessage (lit "error signing JWT token")
      ∧ (s.changeRequest env path payload idempotencyKey requestType).err = some err
      ∧ (s.changeRequest env path payload idempotencyKey requestType).request = none
      ∧ (s.changeRequest env path payload idempotencyKey requestType).response = none := by
  unfold SDK.changeRequest
  simp [h]

theorem Passthrough_change (s : SDK) (env : Env) (method path payload : Bytes)
    (h : method = lit "POST" ∨ method = lit "PUT" ∨ method = lit "DELETE") :
    s.Passthrough env method path payload = s.changeRequest env path payload (lit "") method := by
  rcases h with h | h | h <;> subst h <;> rfl

theorem Passthrough_get (s : SDK) (env : Env) (method path payload : Bytes)
    (h : ¬ (method = lit "POST" ∨ method = lit "PUT" ∨ method = lit "DELETE")) :
    s.Passthrough env method path payload = s.getRequest env path := by
  simp only [not_or] at h
  obtain ⟨h1, h2, h3⟩ := h
  unfold SDK.Passthrough
  simp [h1, h2, h3]

theorem and_top_bit_cleared (u : Nat) : u &&& notUint64 (1 <<< 63) = u % 2 ^ 63 := by
  have h : notUint64 (1 <<< 63) = 2 ^ 63 - 1 := by decide
  rw [h]
  exact Nat.and_pow_two_sub_one_eq_mod u 63

theorem toInt64_of_lt (x : Nat) (h : x < 2 ^ 63) : toInt64 x = (x : Int) := by
  have h64 : x % 2 ^ 64 = x := Nat.mod_eq_of_lt (by omega)
  unfold toInt64
  rw [h64, if_pos h]

theorem Int63_eq (env : Env) :
    (secrets.Int63 env).1 = (((secrets.Uint64 env).1 % 2 ^ 63 : Nat) : Int) := by
  unfold secrets.Int63
  simp only []
  rw [and_top_bit_cleared]
  exact toInt64_of_lt _ (Nat.mod_lt _ (by decide))

theorem Unix_add_seconds (t n : Int) :
    time.Unix (time.Add t (time.Second * n)) = time.Unix t + n := by
  unfold time.Unix time.Add time.Second
  rw [Int.add_mul_ediv_left _ _ (by decide)]

theorem Do_ok_inv (client : HystrixClient) (env : Env) (request : Request)
    (response : Response) (h : (client.Do env request).1 = .ok response) :
    env.circuit = none ∧ env.httpDo client.httpTimeout request = .ok response
      ∧ response.statusCode < 500 := by
  unfold HystrixClient.Do at h
  cases hc : env.circuit with
  | some e => simp [hc] at h
  | none =>
    cases hd : env.httpDo client.httpTimeout request with
    | error e => simp [hc, hd] at h
    | ok r =>
      by_cases hs : r.statusCode ≥ 500
      · simp [hc, hd, hs] at h
      · simp only [hc, hd, if_neg hs, Except.ok.injEq] at h
        subst h
        exact ⟨rfl, rfl, by omega⟩

theorem getRequest_request_of_ok (s : SDK) (env : Env) (path : Bytes)
    (hsign : (s.kto.createAndSignJWTToken env path (lit "")).err = none)
    (hnew : env.newRequestErr (lit "GET") (s.apiBaseURL ++ path) = none) :
    (s.getRequest env path).request = some (getRequestBuilt s env path) := by
  have hex : ∃ request, (s.getRequest env path).request = some request := by
    unfold SDK.getRequest
    simp only [hsign, http.NewRequest, hnew]
    split
    · exact ⟨_, rfl⟩
    · split <;> exact ⟨_, rfl⟩
  obtain ⟨request, h⟩ := hex
  rw [h, getRequest_request_eq s env path request h]

theorem changeRequest_request_of_ok (s : SDK) (env : Env)
    (path payload idempotencyKey requestType : Bytes)
    (hsign : (s.kto.createAndSignJWTToken env path payload).err = none)
    (hnew : env.newRequestErr requestType (s.apiBaseURL ++ path) = none) :
    (s.changeRequest env path payload idempotencyKey requestType).request
      = some (changeRequestBuilt s env path payload idempotencyKey requestType) := by
  have hex : ∃ request,
      (s.changeRequest env path payload idempotencyKey requestType).request = some request := by
    unfold SDK.changeRequest
    simp only [hsign, http.NewRequest, hnew]
    split
    · exact ⟨_, rfl⟩
    · split <;> exact ⟨_, rfl⟩
  obtain ⟨request, h⟩ := hex
  rw [h, changeRequest_request_eq s env path payload idempotencyKey requestType request h]

theorem headerValues_getRequestBuilt (s : SDK) (env : Env) (path : Bytes) :
    (getRequestBuilt s env path).headerValues (lit "X-API-Key") = [s.kto.apiKey]
      ∧ (getRequestBuilt s env path).headerValues (lit "Authorization")
          = [lit "Bearer " ++ (s.kto.createAndSignJWTToken env path (lit "")).signedToken]
      ∧ (getRequestBuilt s env path).headerValues (lit "Content-Type") = []
      ∧ (getRequestBuilt s env path).headerValues (lit "Idempotency-Key") = [] := by
  refine ⟨?_, ?_, ?_, ?_⟩ <;>
    simp +decide [getRequestBuilt, Request.headerValues, List.filter_cons]

theorem headerValues_changeRequestBuilt (s : SDK) (env : Env)
    (path payload idempotencyKey requestType : Bytes) :
    (changeRequestBuilt s env path payload idempotencyKey requestType).headerValues
        (lit "X-API-Key") = [s.kto.apiKey]
      ∧ (changeRequestBuilt s env path payload idempotencyKey requestType).headerValues
          (lit "Authorization")
          = [lit "Bearer " ++ (s.kto.createAndSignJWTToken env path payload).signedToken]
      ∧ (changeRequestBuilt s env path payload idempotencyKey requestType).headerValues
          (lit "Content-Type") = [lit "application/json"]
      ∧ (changeRequestBuilt s env path payload idempotencyKey requestType).headerValues
          (lit "Idempotency-Key") = if idempotencyKey = [] then [] else [idempotencyKey] := by
  cases idempotencyKey with
  | nil =>
    refine ⟨?_, ?_, ?_, ?_⟩ <;>
      simp +decide [changeRequestBuilt, Request.headerValues, List.filter_cons]
  | cons b rest =>
    refine ⟨?_, ?_, ?_, ?_⟩ <;>
      simp +decide [changeRequestBuilt, Request.headerValues, List.filter_cons]

theorem createAndSignJWTToken_claims (k : FbKeyMgmt) (env : Env) (path bodyJSON : Bytes) :
    (k.createAndSignJWTToken env path bodyJSON).claims.uri = path
      ∧ (k.createAndSignJWTToken env path bodyJSON).claims.bodyHash = createHash bodyJSON
      ∧ (k.createAndSignJWTToken env path bodyJSON).claims.sub = k.apiKey
      ∧ (k.createAndSignJWTToken env path bodyJSON).claims.nonce = (secrets.Int63 env).1 :=
  ⟨rfl, rfl, rfl, rfl⟩

theorem createAndSignJWTToken_signed (k : FbKeyMgmt) (env : Env) (path bodyJSON : Bytes) :
    ((k.createAndSignJWTToken env path bodyJSON).signedToken,
        (k.createAndSignJWTToken env path bodyJSON).err)
      = env.signedString (k.createAndSignJWTToken env path bodyJSON).claims k.privateKey :=
  rfl

theorem createAndSignJWTToken_window (k : FbKeyMgmt) (env : Env) (path bodyJSON : Bytes) :
    (k.createAndSignJWTToken env path bodyJSON).claims.exp
        - (k.createAndSignJWTToken env path bodyJSON).claims.iat
      = 55 + (time.Unix env.now2 - time.Unix env.now1) := by
  have h : (k.createAndSignJWTToken env path bodyJSON).claims.exp = time.Unix env.now2 + 55 :=
    Unix_add_seconds env.now2 55
  have h' : (k.createAndSignJWTToken env path bodyJSON).claims.iat = time.Unix env.now1 := rfl
  rw [h, h']
  omega

theorem createAndSignJWTToken_window_ge (k : FbKeyMgmt) (env : Env) (path bodyJSON : Bytes)
    (h : env.now1 ≤ env.now2) :
    55 ≤ (k.createAndSignJWTToken env path bodyJSON).claims.exp
        - (k.createAndSignJWTToken env path bodyJSON).claims.iat := by
  rw [createAndSignJWTToken_window]
  have hmono : time.Unix env.now1 ≤ time.Unix env.now2 :=
    Int.ediv_le_ediv (by decide) h
  omega

theorem createAndSignJWTToken_window_same_second (k : FbKeyMgmt) (env : Env)
    (path bodyJSON : Bytes) (h : time.Unix env.now1 = time.Unix env.now2) :
    (k.createAndSignJWTToken env path bodyJSON).claims.exp
        - (k.createAndSignJWTToken env path bodyJSON).claims.iat = 55 := by
  rw [createAndSignJWTToken_window, h]
  omega

theorem createHash_empty :
    createHash (lit "") = lit "e3b0c44298fc1c149afbf4c8996fb92427ae41e4649b934ca495991b7852b855" := by
  decide

theorem createHash_abc :
    createHash (lit "abc")
      = lit "ba7816bf8f01cfea414140de5dae2223b00361a396177a9cb410ff61f20015ad" := by
  decide

/-! ## The claims -/

/-- C2: `Passthrough` is `changeRequest` with the empty idempotency key and the
method itself when the method is exactly `POST`, `PUT` or `DELETE`, and is
`getRequest` for every other method value, among them `GET`, the empty string,
`post` and `PATCH`; so every error it returns is one of those two calls. -/
theorem Passthrough_dispatch (s : SDK) (env : Env) (method path payload : Bytes) :
    (s.Passthrough env method path payload
        = if method = lit "POST" ∨ method = lit "PUT" ∨ method = lit "DELETE"
          then s.changeRequest env path payload (lit "") method
          else s.getRequest env path)
    ∧ (∀ m ∈ [lit "GET", lit "", lit "post", lit "put", lit "delete", lit "PATCH"],
        s.Passthrough env m path payload = s.getRequest env path)
    ∧ (∀ m ∈ [lit "POST", lit "PUT", lit "DELETE"],
        s.Passthrough env m path payload = s.changeRequest env path payload (lit "") m)
    ∧ (∀ err, (s.Passthrough env method path payload).err = some err →
        (s.changeRequest env path payload (lit "") method).err = some err
          ∨ (s.getRequest env path).err = some err) := by
  refine ⟨?_, ?_, ?_, ?_⟩
  · by_cases h : method = lit "POST" ∨ method = lit "PUT" ∨ method = lit "DELETE"
    · rw [if_pos h]
      exact Passthrough_change s env method path payload h
    · rw [if_neg h]
      exact Passthrough_get s env method path payload h
  · intro m hm
    apply Passthrough_get
    simp only [List.mem_cons, List.mem_singleton, List.not_mem_nil, or_false] at hm
    rcases hm with h | h | h | h | h | h <;> subst h <;> decide
  · intro m hm
    apply Passthrough_change
    simpa using hm
  · intro err herr
    by_cases h : method = lit "POST" ∨ method = lit "PUT" ∨ method = lit "DELETE"
    · rw [Passthrough_change s env method path payload h] at herr
      exact Or.inl herr
    · rw [Passthrough_get s env method path payload h] at herr
      exact Or.inr herr

/-- C3: the `bodyHash` claim of the signed claim set is `createHash` of exactly
the bytes sent as the body.  On the read path the claim set is built over the
path and the empty string, so `bodyHash` is the hex SHA-256 digest of the empty
byte sequence, `e3b0c442...7852b855`, and the request has no body; on the mutating path `bodyHash` is
`createHash` of the payload, which is also the request body.  On both paths
the `uri` claim is the path and the token in the `Authorization` header is the
signer's output for that claim set. -/
theorem bodyHash_is_hash_of_body_sent (s : SDK) (env : Env)
    (path payload idempotencyKey requestType : Bytes) :
    ((s.getRequest env path).claims.bodyHash = hex.EncodeToString (sha256.Sum [])
      ∧ (s.getRequest env path).claims.bodyHash
          = lit "e3b0c44298fc1c149afbf4c8996fb92427ae41e4649b934ca495991b7852b855"
      ∧ (s.getRequest env path).claims.uri = path
      ∧ ∀ request, (s.getRequest env path).request = some request →
          request.body = none
          ∧ request.headerValues (lit "Authorization")
              = [lit "Bearer "
                  ++ (env.signedString (s.getRequest env path).claims s.kto.privateKey).1])
    ∧ ((s.changeRequest env path payload idempotencyKey requestType).claims.bodyHash
          = createHash payload
      ∧ (s.changeRequest env path payload idempotencyKey requestType).claims.uri = path
      ∧ ∀ request,
          (s.changeRequest env path payload idempotencyKey requestType).request = some request →
          request.body = some payload
          ∧ request.headerValues (lit "Authorization")
              = [lit "Bearer "
                  ++ (env.signedString
                      (s.changeRequest env path payload idempotencyKey requestType).claims
                      s.kto.privateKey).1]) := by
  refine ⟨⟨?_, ?_, ?_, ?_⟩, ?_, ?_, ?_⟩
  · rw [getRequest_claims]; rfl
  · rw [getRequest_claims, (createAndSignJWTToken_claims s.kto env path (lit "")).2.1]
    exact createHash_empty
  · rw [getRequest_claims]; rfl
  · intro request h
    rw [getRequest_claims, getRequest_request_eq s env path request h]
    exact ⟨rfl, (headerValues_getRequestBuilt s env path).2.1⟩
  · rw [changeRequest_claims]; rfl
  · rw [changeRequest_claims]; rfl
  · intro request h
    rw [changeRequest_claims,
      changeRequest_request_eq s env path payload idempotencyKey requestType request h]
    exact ⟨rfl,
      (headerValues_changeRequestBuilt s env path payload idempotencyKey requestType).2.1⟩

/-- C3 at a concrete input: both paths send a request; the read path sends no
body under the hash of the empty string, the mutating path sends the payload
under the hash of the payload. -/
theorem bodyHash_is_hash_of_body_sent_witness :
    (stubSDK.getRequest notFoundEnv (lit "/v1/vault")).request
        = some (getRequestBuilt stubSDK notFoundEnv (lit "/v1/vault"))
    ∧ (getRequestBuilt stubSDK notFoundEnv (lit "/v1/vault")).body = none
    ∧ (stubSDK.getRequest notFoundEnv (lit "/v1/vault")).claims.bodyHash = lit "e3b0c44298fc1c149afbf4c8996fb92427ae41e4649b934ca495991b7852b855"
    ∧ (stubSDK.changeRequest notFoundEnv (lit "/v1/vault") (lit "[1]") (lit "key-1")
        (lit "POST")).request
        = some (changeRequestBuilt stubSDK notFoundEnv (lit "/v1/vault") (lit "[1]")
            (lit "key-1") (lit "POST"))
    ∧ (changeRequestBuilt stubSDK notFoundEnv (lit "/v1/vault") (lit "[1]") (lit "key-1")
        (lit "POST")).body = some (lit "[1]")
    ∧ (stubSDK.changeRequest notFoundEnv (lit "/v1/vault") (lit "[1]") (lit "key-1")
        (lit "POST")).claims.bodyHash = lit "080a9ed428559ef602668b4c00f114f1a11c3f6b02a435f0bdc154578e4d7f22" :=
  have h := bodyHash_is_hash_of_body_sent stubSDK notFoundEnv (lit "/v1/vault") (lit "[1]")
    (lit "key-1") (lit "POST")
  ⟨by decide, (h.1.2.2.2 _ (by decide)).1, h.1.1.trans (by decide), by decide,
    (h.2.2.2 _ (by decide)).1, h.2.1.trans (by decide)⟩

/-- C4, evaluated where it fails: with the first clock reading at the last
nanosecond of a second and the second reading one nanosecond later, signing
succeeds and the claim set has `exp - iat = 56`, not 55. -/
theorem window_is_56_across_second_boundary :
    boundaryEnv.now1 ≤ boundaryEnv.now2
    ∧ boundaryEnv.now2 - boundaryEnv.now1 = 1
    ∧ (stubSDK.kto.createAndSignJWTToken boundaryEnv (lit "/v1/vault") (lit "")).err = none
    ∧ (stubSDK.kto.createAndSignJWTToken boundaryEnv (lit "/v1/vault") (lit "")).claims.iat
        = 1700000000
    ∧ (stubSDK.kto.createAndSignJWTToken boundaryEnv (lit "/v1/vault") (lit "")).claims.exp
        = 1700000056
    ∧ (stubSDK.kto.createAndSignJWTToken boundaryEnv (lit "/v1/vault") (lit "")).claims.exp
        - (stubSDK.kto.createAndSignJWTToken boundaryEnv (lit "/v1/vault") (lit "")).claims.iat
        = 56 := by
  decide

/-- C5: whenever signing and request construction succeed, `changeRequest`
builds a request and hands it to the client, and that request carries an
`Idempotency-Key` header if and only if the idempotency key is non-empty, its
only value then being that key; `getRequest` under the same conditions sends a
request that carries none.  No request of either is built in another way. -/
theorem idempotency_key_header_iff_nonempty (s : SDK) (env : Env)
    (path payload idempotencyKey requestType : Bytes) :
    ((s.kto.createAndSignJWTToken env path payload).err = none →
      env.newRequestErr requestType (s.apiBaseURL ++ path) = none →
      (s.changeRequest env path payload idempotencyKey requestType).request.map
          (fun request => request.headerValues (lit "Idempotency-Key"))
        = some (if idempotencyKey = [] then [] else [idempotencyKey]))
    ∧ (∀ request,
        (s.changeRequest env path payload idempotencyKey requestType).request = some request →
        (request.headerValues (lit "Idempotency-Key") ≠ [] ↔ idempotencyKey ≠ [])
        ∧ (idempotencyKey ≠ [] →
            request.headerValues (lit "Idempotency-Key") = [idempotencyKey])
        ∧ ((lit "Idempotency-Key", idempotencyKey) ∈ request.header ↔ idempotencyKey ≠ []))
    ∧ ((s.kto.createAndSignJWTToken env path (lit "")).err = none →
      env.newRequestErr (lit "GET") (s.apiBaseURL ++ path) = none →
      (s.getRequest env path).request.map
          (fun request => request.headerValues (lit "Idempotency-Key")) = some [])
    ∧ (∀ request, (s.getRequest env path).request = some request →
        request.headerValues (lit "Idempotency-Key") = []
        ∧ ∀ value, (lit "Idempotency-Key", value) ∉ request.header) := by
  refine ⟨?_, ?_, ?_, ?_⟩
  · intro hsign hnew
    rw [changeRequest_request_of_ok s env path payload idempotencyKey requestType hsign hnew]
    exact congrArg some
      (headerValues_changeRequestBuilt s env path payload idempotencyKey requestType).2.2.2
  · intro request h
    rw [changeRequest_request_eq s env path payload idempotencyKey requestType request h]
    have hv := (headerValues_changeRequestBuilt s env path payload idempotencyKey
      requestType).2.2.2
    rw [hv]
    cases idempotencyKey with
    | nil => simp +decide [changeRequestBuilt]
    | cons b rest => simp +decide [changeRequestBuilt]
  · intro hsign hnew
    rw [getRequest_request_of_ok s env path hsign hnew]
    exact congrArg some (headerValues_getRequestBuilt s env path).2.2.2
  · intro request h
    rw [getRequest_request_eq s env path request h]
    refine ⟨(headerValues_getRequestBuilt s env path).2.2.2, ?_⟩
    intro value
    simp +decide [getRequestBuilt]

/-- C5 at a concrete input: `changeRequest` with key `key-1` sends a request
whose header has that value, with the empty key it sends one without the header,
and `getRequest` sends one without it. -/
theorem idempotency_key_header_iff_nonempty_witness :
    (stubSDK.changeRequest notFoundEnv (lit "/v1/vault") (lit "[1]") (lit "key-1")
        (lit "POST")).request.map
          (fun request => request.headerValues (lit "Idempotency-Key")) = some [lit "key-1"]
    ∧ (stubSDK.changeRequest notFoundEnv (lit "/v1/vault") (lit "[1]") (lit "")
        (lit "POST")).request.map
          (fun request => request.headerValues (lit "Idempotency-Key")) = some []
    ∧ (stubSDK.getRequest notFoundEnv (lit "/v1/vault")).request.map
          (fun request => request.headerValues (lit "Idempotency-Key")) = some [] :=
  ⟨(idempotency_key_header_iff_nonempty stubSDK notFoundEnv (lit "/v1/vault") (lit "[1]")
      (lit "key-1") (lit "POST")).1 (by decide) rfl,
   (idempotency_key_header_iff_nonempty stubSDK notFoundEnv (lit "/v1/vault") (lit "[1]")
      (lit "") (lit "POST")).1 (by decide) rfl,
   (idempotency_key_header_iff_nonempty stubSDK notFoundEnv (lit "/v1/vault") (lit "[1]")
      (lit "key-1") (lit "POST")).2.2.1 (by decide) rfl⟩

/-- C6: whenever signing and request construction succeed, `getRequest` and
`changeRequest` hand the client a request that carries `X-API-Key` with the API
key of the client (the one `NewInstance` was given) and `Authorization` with
`Bearer ` followed by the token just signed for the same path and body; the
request of the mutating path also carries `Content-Type: application/json`, the
request of the read path carries no `Content-Type`.  No request of either is
built in another way. -/
theorem auth_headers_attached (s : SDK) (env : Env)
    (path payload idempotencyKey requestType : Bytes) (pk ak url : Bytes) (t : Int) :
    ((s.kto.createAndSignJWTToken env path (lit "")).err = none →
      env.newRequestErr (lit "GET") (s.apiBaseURL ++ path) = none →
      (s.getRequest env path).request.map
          (fun request => request.headerValues (lit "X-API-Key")) = some [s.kto.apiKey]
      ∧ (s.getRequest env path).request.map
          (fun request => request.headerValues (lit "Authorization"))
          = some [lit "Bearer " ++ (s.kto.createAndSignJWTToken env path (lit "")).signedToken]
      ∧ (s.getRequest env path).request.map
          (fun request => request.headerValues (lit "Content-Type")) = some [])
    ∧ ((s.kto.createAndSignJWTToken env path payload).err = none →
      env.newRequestErr requestType (s.apiBaseURL ++ path) = none →
      (s.changeRequest env path payload idempotencyKey requestType).request.map
          (fun request => request.headerValues (lit "X-API-Key")) = some [s.kto.apiKey]
      ∧ (s.changeRequest env path payload idempotencyKey requestType).request.map
          (fun request => request.headerValues (lit "Authorization"))
          = some [lit "Bearer " ++ (s.kto.createAndSignJWTToken env path payload).signedToken]
      ∧ (s.changeRequest env path payload idempotencyKey requestType).request.map
          (fun request => request.headerValues (lit "Content-Type"))
          = some [lit "application/json"])
    ∧ (∀ request, (s.getRequest env path).request = some request →
        request.headerValues (lit "X-API-Key") = [s.kto.apiKey]
        ∧ request.headerValues (lit "Authorization")
            = [lit "Bearer " ++ (s.kto.createAndSignJWTToken env path (lit "")).signedToken]
        ∧ request.headerValues (lit "Content-Type") = [])
    ∧ (∀ request,
        (s.changeRequest env path payload idempotencyKey requestType).request = some request →
        request.headerValues (lit "X-API-Key") = [s.kto.apiKey]
        ∧ request.headerValues (lit "Authorization")
            = [lit "Bearer " ++ (s.kto.createAndSignJWTToken env path payload).signedToken]
        ∧ request.headerValues (lit "Content-Type") = [lit "application/json"])
    ∧ (NewInstance env pk ak url t).1.kto.apiKey = ak := by
  refine ⟨?_, ?_, ?_, ?_, rfl⟩
  · intro hsign hnew
    rw [getRequest_request_of_ok s env path hsign hnew]
    have hv := headerValues_getRequestBuilt s env path
    exact ⟨congrArg some hv.1, congrArg some hv.2.1, congrArg some hv.2.2.1⟩
  · intro hsign hnew
    rw [changeRequest_request_of_ok s env path payload idempotencyKey requestType hsign hnew]
    have hv := headerValues_changeRequestBuilt s env path payload idempotencyKey requestType
    exact ⟨congrArg some hv.1, congrArg some hv.2.1, congrArg some hv.2.2.1⟩
  · intro request h
    rw [getRequest_request_eq s env path request h]
    have hv := headerValues_getRequestBuilt s env path
    exact ⟨hv.1, hv.2.1, hv.2.2.1⟩
  · intro request h
    rw [changeRequest_request_eq s env path payload idempotencyKey requestType request h]
    have hv := headerValues_changeRequestBuilt s env path payload idempotencyKey requestType
    exact ⟨hv.1, hv.2.1, hv.2.2.1⟩

/-- C6 at a concrete input: the client that `NewInstance` builds from the key
text and the API key `caller-1` sends, on both paths, a request with that key
and the bearer token, and `application/json` on the mutating path. -/
theorem auth_headers_attached_witness :
    (NewInstance notFoundEnv stubPem (lit "caller-1") (lit "https://api.test") 0).1 = stubSDK
    ∧ (stubSDK.getRequest notFoundEnv (lit "/v1/vault")).request.map
          (fun request => request.headerValues (lit "X-API-Key")) = some [lit "caller-1"]
    ∧ (stubSDK.getRequest notFoundEnv (lit "/v1/vault")).request.map
          (fun request => request.headerValues (lit "Authorization"))
        = some [lit ("Bearer jwt:/v1/vault:"
            ++ "e3b0c44298fc1c149afbf4c8996fb92427ae41e4649b934ca495991b7852b855")]
    ∧ (stubSDK.changeRequest notFoundEnv (lit "/v1/vault") (lit "[1]") (lit "key-1")
        (lit "POST")).request.map
          (fun request => request.headerValues (lit "X-API-Key")) = some [lit "caller-1"]
    ∧ (stubSDK.changeRequest notFoundEnv (lit "/v1/vault") (lit "[1]") (lit "key-1")
        (lit "POST")).request.map
          (fun request => request.headerValues (lit "Authorization"))
        = some [lit ("Bearer jwt:/v1/vault:"
            ++ "080a9ed428559ef602668b4c00f114f1a11c3f6b02a435f0bdc154578e4d7f22")]
    ∧ (stubSDK.changeRequest notFoundEnv (lit "/v1/vault") (lit "[1]") (lit "key-1")
        (lit "POST")).request.map
          (fun request => request.headerValues (lit "Content-Type"))
        = some [lit "application/json"] :=
  have h := auth_headers_attached stubSDK notFoundEnv (lit "/v1/vault") (lit "[1]")
    (lit "key-1") (lit "POST") stubPem (lit "caller-1") (lit "https://api.test") 0
  ⟨rfl, (h.1 (by decide) rfl).1, (h.1 (by decide) rfl).2.1.trans (by decide),
    (h.2.1 (by decide) rfl).1, (h.2.1 (by decide) rfl).2.1.trans (by decide),
    (h.2.1 (by decide) rfl).2.2⟩

/-- C7: whenever signing fails, `getRequest` and `changeRequest` return the
signing error together with the fixed payload `{message: "error signing JWT
token."}`, whatever string the signer returned next to its error, and hand no
request to the client and get no response. -/
theorem signing_failure_returns_fixed_message (s : SDK) (env : Env)
    (path payload idempotencyKey requestType : Bytes) (err : GoError) :
    ((s.kto.createAndSignJWTToken env path (lit "")).err = some err →
        (s.getRequest env path).payload = lit "\x7bmessage: \"error signing JWT token.\"\x7d"
        ∧ (s.getRequest env path).err = some err
        ∧ (s.getRequest env path).request = none
        ∧ (s.getRequest env path).response = none)
    ∧ ((s.kto.createAndSignJWTToken env path payload).err = some err →
        (s.changeRequest env path payload idempotencyKey requestType).payload
          = lit "\x7bmessage: \"error signing JWT token.\"\x7d"
        ∧ (s.changeRequest env path payload idempotencyKey requestType).err = some err
        ∧ (s.changeRequest env path payload idempotencyKey requestType).request = none
        ∧ (s.changeRequest env path payload idempotencyKey requestType).response = none) := by
  have hmsg : sprintfMessage (lit "error signing JWT token")
      = lit "\x7bmessage: \"error signing JWT token.\"\x7d" := by decide
  constructor
  · intro h
    have := getRequest_of_sign_err s env path err h
    rwa [hmsg] at this
  · intro h
    have := changeRequest_of_sign_err s env path payload idempotencyKey requestType err h
    rwa [hmsg] at this

/-- C7 at a concrete input: a signer that fails with `key is invalid`. -/
theorem signing_failure_returns_fixed_message_witness :
    (stubSDK.kto.createAndSignJWTToken noSignEnv (lit "/v1/vault") (lit "")).err
        = some { msg := lit "key is invalid" }
    ∧ (stubSDK.kto.createAndSignJWTToken noSignEnv (lit "/v1/vault") (lit "[1]")).err
        = some { msg := lit "key is invalid" }
    ∧ (stubSDK.getRequest noSignEnv (lit "/v1/vault")).err = some { msg := lit "key is invalid" }
    ∧ (stubSDK.getRequest noSignEnv (lit "/v1/vault")).request = none
    ∧ (stubSDK.changeRequest noSignEnv (lit "/v1/vault") (lit "[1]") (lit "key-1")
        (lit "POST")).payload = lit "\x7bmessage: \"error signing JWT token.\"\x7d" :=
  have h := signing_failure_returns_fixed_message stubSDK noSignEnv (lit "/v1/vault")
    (lit "[1]") (lit "key-1") (lit "POST") { msg := lit "key is invalid" }
  ⟨by decide, by decide, (h.1 (by decide)).2.1, (h.1 (by decide)).2.2.1, (h.2 (by decide)).1⟩

/-- C8 as stated fails: with the entropy read failing, `createAndSignJWTToken`
returns a nil error and a signed token, made from the nonce 0, and `getRequest`
goes on to send it. -/
theorem entropy_failure_is_not_reported :
    noEntropyEnv.binaryRead = .error stubErr
    ∧ (secrets.Int63 noEntropyEnv).1 = 0
    ∧ (stubSDK.kto.createAndSignJWTToken noEntropyEnv (lit "/v1/vault") (lit "")).err = none
    ∧ (stubSDK.kto.createAndSignJWTToken noEntropyEnv (lit "/v1/vault") (lit "")).signedToken
        = lit "jwt:/v1/vault:e3b0c44298fc1c149afbf4c8996fb92427ae41e4649b934ca495991b7852b855"
    ∧ (stubSDK.kto.createAndSignJWTToken noEntropyEnv (lit "/v1/vault") (lit "")).claims.nonce
        = 0
    ∧ (stubSDK.getRequest noEntropyEnv (lit "/v1/vault")).err = none
    ∧ (stubSDK.getRequest noEntropyEnv (lit "/v1/vault")).request
        = some (getRequestBuilt stubSDK noEntropyEnv (lit "/v1/vault")) := by
  refine ⟨rfl, ?_, ?_, ?_, ?_, ?_, ?_⟩ <;> decide

/-- C8 as amended: when the entropy read fails, `secrets.Uint64` logs the read
error and returns 0, `secrets.Int63` returns 0, and `createAndSignJWTToken`
raises no error of its own: it signs a claim set whose nonce is 0 and returns
exactly the token and the error of the signer. -/
theorem entropy_failure_logged_nonce_zero (k : FbKeyMgmt) (env : Env) (path bodyJSON : Bytes)
    (err : GoError) (h : env.binaryRead = .error err) :
    secrets.Uint64 env = (0, [LogEntry.error err])
    ∧ secrets.Int63 env = (0, [LogEntry.error err])
    ∧ (k.createAndSignJWTToken env path bodyJSON).claims.nonce = 0
    ∧ ((k.createAndSignJWTToken env path bodyJSON).signedToken,
          (k.createAndSignJWTToken env path bodyJSON).err)
        = env.signedString (k.createAndSignJWTToken env path bodyJSON).claims k.privateKey := by
  have hu : secrets.Uint64 env = (0, [LogEntry.error err]) := by
    unfold secrets.Uint64
    rw [h]
  have hi : secrets.Int63 env = (0, [LogEntry.error err]) := by
    have hz : toInt64 (0 &&& notUint64 (1 <<< 63)) = 0 := by decide
    unfold secrets.Int63
    rw [hu]
    show (toInt64 (0 &&& notUint64 (1 <<< 63)), [LogEntry.error err]) = (0, [LogEntry.error err])
    rw [hz]
  refine ⟨hu, hi, ?_, createAndSignJWTToken_signed k env path bodyJSON⟩
  rw [(createAndSignJWTToken_claims k env path bodyJSON).2.2.2, hi]

/-- C8 as amended, at a concrete input. -/
theorem entropy_failure_logged_nonce_zero_witness :
    noEntropyEnv.binaryRead = .error stubErr
    ∧ secrets.Uint64 noEntropyEnv = (0, [LogEntry.error stubErr])
    ∧ (stubSDK.kto.createAndSignJWTToken noEntropyEnv (lit "/v1/vault") (lit "")).claims.nonce
        = 0 :=
  have h := entropy_failure_logged_nonce_zero stubSDK.kto noEntropyEnv (lit "/v1/vault") (lit "")
    stubErr rfl
  ⟨rfl, h.1, h.2.2.1⟩

/-- C9: `secrets.Int63` returns the value of `secrets.Uint64`, a number below
`2^64`, with its top bit cleared, that is, reduced modulo `2^63`; the result
lies between 0 and `2^63 - 1`.  Every 64-bit value is a possible reading. -/
theorem Int63_is_Uint64_mod_two_pow_63 (env : Env) :
    (secrets.Uint64 env).1 < 2 ^ 64
    ∧ (secrets.Int63 env).1 = (((secrets.Uint64 env).1 % 2 ^ 63 : Nat) : Int)
    ∧ 0 ≤ (secrets.Int63 env).1
    ∧ (secrets.Int63 env).1 ≤ 2 ^ 63 - 1
    ∧ ∀ u : Nat, u < 2 ^ 64 →
        (secrets.Uint64 { env with binaryRead := .ok u }).1 = u
        ∧ (secrets.Int63 { env with binaryRead := .ok u }).1 = ((u % 2 ^ 63 : Nat) : Int) := by
  have hlt : ∀ e : Env, (secrets.Uint64 e).1 < 2 ^ 64 := by
    intro e
    unfold secrets.Uint64
    split
    · exact Nat.two_pow_pos 64
    · exact Nat.mod_lt _ (by decide)
  have hmod : (secrets.Uint64 env).1 % 2 ^ 63 < 2 ^ 63 := Nat.mod_lt _ (by decide)
  refine ⟨hlt env, Int63_eq env, ?_, ?_, ?_⟩
  · rw [Int63_eq]; exact Int.ofNat_nonneg _
  · rw [Int63_eq]; omega
  · intro u hu
    have hu' : (secrets.Uint64 { env with binaryRead := .ok u }).1 = u := by
      show toUint64 u = u
      exact Nat.mod_eq_of_lt hu
    refine ⟨hu', ?_⟩
    rw [Int63_eq, hu']

/-- C9 at concrete inputs: the largest 64-bit value and `2^63` itself. -/
theorem Int63_is_Uint64_mod_two_pow_63_witness :
    (secrets.Int63 notFoundEnv).1 = 9223372036854775807
    ∧ (secrets.Int63 { notFoundEnv with binaryRead := .ok 9223372036854775808 }).1 = 0 :=
  ⟨(Int63_is_Uint64_mod_two_pow_63 notFoundEnv).2.1.trans (by decide),
   ((Int63_is_Uint64_mod_two_pow_63 notFoundEnv).2.2.2.2 9223372036854775808
      (by decide)).2.trans (by decide)⟩

/-- C10: no request issued by `Passthrough` carries an `Idempotency-Key`
header, whatever the method, path and payload; and for a method that is not
`POST`, `PUT` or `DELETE` the whole result is the same for every payload. -/
theorem Passthrough_never_sends_idempotency_key (s : SDK) (env : Env)
    (method path payload : Bytes) :
    (∀ request, (s.Passthrough env method path payload).request = some request →
        request.headerValues (lit "Idempotency-Key") = []
        ∧ ∀ value, (lit "Idempotency-Key", value) ∉ request.header)
    ∧ (¬ (method = lit "POST" ∨ method = lit "PUT" ∨ method = lit "DELETE") →
        ∀ payload2, s.Passthrough env method path payload2
          = s.Passthrough env method path payload) := by
  constructor
  · intro request h
    by_cases hm : method = lit "POST" ∨ method = lit "PUT" ∨ method = lit "DELETE"
    · rw [Passthrough_change s env method path payload hm] at h
      rw [changeRequest_request_eq s env path payload (lit "") method request h]
      refine ⟨(headerValues_changeRequestBuilt s env path payload (lit "") method).2.2.2, ?_⟩
      intro value
      simp +decide [changeRequestBuilt]
    · rw [Passthrough_get s env method path payload hm] at h
      rw [getRequest_request_eq s env path request h]
      refine ⟨(headerValues_getRequestBuilt s env path).2.2.2, ?_⟩
      intro value
      simp +decide [getRequestBuilt]
  · intro hm payload2
    rw [Passthrough_get s env method path payload hm, Passthrough_get s env method path payload2 hm]

/-- C10 at a concrete input: a `POST` sends a request without the header, and a
`PATCH` gives the same result for two payloads. -/
theorem Passthrough_never_sends_idempotency_key_witness :
    (stubSDK.Passthrough notFoundEnv (lit "POST") (lit "/v1/vault") (lit "[1]")).request
        = some (changeRequestBuilt stubSDK notFoundEnv (lit "/v1/vault") (lit "[1]") (lit "")
            (lit "POST"))
    ∧ (changeRequestBuilt stubSDK notFoundEnv (lit "/v1/vault") (lit "[1]") (lit "")
        (lit "POST")).headerValues (lit "Idempotency-Key") = []
    ∧ stubSDK.Passthrough notFoundEnv (lit "PATCH") (lit "/v1/vault") (lit "[2]")
        = stubSDK.Passthrough notFoundEnv (lit "PATCH") (lit "/v1/vault") (lit "[1]") :=
  ⟨by decide,
   ((Passthrough_never_sends_idempotency_key stubSDK notFoundEnv (lit "POST") (lit "/v1/vault")
      (lit "[1]")).1 _ (by decide)).1,
   (Passthrough_never_sends_idempotency_key stubSDK notFoundEnv (lit "PATCH") (lit "/v1/vault")
      (lit "[1]")).2 (by decide) (lit "[2]")⟩

end Fireblocks
